import Mathlib

/-!
Shallow embedding of the ephemeral-account test-lifecycle coordinator found in
`scripts/jmap-client/conftest.py`.  Pure helpers (`generate_password`,
`verify_dynamodb_clean`, `verify_s3_clean`, `delete_infrastructure_records`)
are translated directly; the randomness of `secrets` is passed in as an
explicit oracle, the backing stores are passed in as explicit data, and the
blocking loops (`while time.time() - start < max_wait` and
`for attempt in range(max_attempts)`) become recursions over an explicit
discrete clock / attempt counter.  External collaborator calls (Cognito,
HTTP requests, the helpers imported from `helpers.py` that do network I/O)
are modelled as oracle parameters of the session environment; a raised
exception in a stage is modelled by the corresponding Boolean flag.
-/

namespace Conftest

/-! ### Python `string` module constants and `str.startswith` -/

/-- Python `string.ascii_lowercase`. -/
def ascii_lowercase : List Char := "abcdefghijklmnopqrstuvwxyz".toList

/-- Python `string.ascii_uppercase`. -/
def ascii_uppercase : List Char := "ABCDEFGHIJKLMNOPQRSTUVWXYZ".toList

/-- Python `string.digits`. -/
def ascii_digits : List Char := "0123456789".toList

/-- The symbol set used by `generate_password`: `"!@#$%^&*"`. -/
def password_symbols : List Char := "!@#$%^&*".toList

/-- The fill alphabet of `generate_password`:
`string.ascii_letters + string.digits + "!@#$%^&*"`. -/
def password_alphabet : List Char :=
  ascii_lowercase ++ ascii_uppercase ++ ascii_digits ++ password_symbols

/-- Python `s.startswith(p)`: the characters of `p` are an initial segment of
the characters of `s`. -/
def pyStartsWith (s p : String) : Bool :=
  p.toList.isPrefixOf s.toList

/-- Python `s.startswith((p1, ..., pn))`: true when some listed pattern is an
initial segment of `s`. -/
def startsWithAny (s : String) (ps : List String) : Bool :=
  ps.any (fun p => pyStartsWith s p)

/-! ### `generate_password` (conftest.py lines 32-47)

`secrets.choice` and `secrets.SystemRandom().shuffle` are randomness; they are
supplied as an oracle.  Each of the four leading `secrets.choice` calls is one
oracle field, the fill choices are indexed by position, and the shuffle is a
list transformer that the theorems constrain to be a permutation. -/

/-- Randomness oracle for one call of `generate_password`. -/
structure PasswordRng where
  pickLower : Char
  pickUpper : Char
  pickDigit : Char
  pickSymbol : Char
  pickFill : Nat → Char
  shuffle : List Char → List Char

/-- The oracle behaves like `secrets`: each choice lands in the set it was
drawn from and the shuffle is a permutation. -/
def PasswordRng.Valid (rng : PasswordRng) : Prop :=
  rng.pickLower ∈ ascii_lowercase ∧
  rng.pickUpper ∈ ascii_uppercase ∧
  rng.pickDigit ∈ ascii_digits ∧
  rng.pickSymbol ∈ password_symbols ∧
  (∀ i, rng.pickFill i ∈ password_alphabet) ∧
  (∀ l, List.Perm (rng.shuffle l) l)

/-- `generate_password(length)` from conftest.py.  `length` is an `Int` so the
behaviour at small and negative requests is captured: Python's
`range(length - 4)` is empty whenever `length - 4 <= 0`, which is exactly
`(length - 4).toNat` repetitions. -/
def generate_password (rng : PasswordRng) (length : Int) : String :=
  let chars : List Char :=
    [rng.pickLower, rng.pickUpper, rng.pickDigit, rng.pickSymbol]
  let remaining : Int := length - 4
  let chars := chars ++ (List.range remaining.toNat).map rng.pickFill
  String.mk (rng.shuffle chars)

/-! ### DynamoDB / S3 verification helpers (conftest.py lines 97-156) -/

/-- The reserved sort-key patterns treated as expected infrastructure:
account metadata, permanent per-type state counters, change-log entries. -/
def infrastructureTags : List String := ["META#", "STATE#", "CHANGE#"]

/-- A DynamoDB record, reduced to its key attributes `(pk, sk)`. -/
abbrev Record := String × String

/-- The partition key used for an account: `f"ACCOUNT#{account_id}"`. -/
def accountPk (account_id : String) : String := "ACCOUNT#" ++ account_id

/-- The `query(KeyConditionExpression="pk = :pk", ProjectionExpression="sk")`
call: all sort keys of records whose partition key equals `pk`, in store
order. -/
def dynamoQuerySks (store : List Record) (pk : String) : List String :=
  (store.filter (fun r => r.1 == pk)).map Prod.snd

/-- The classification loop of `verify_dynamodb_clean` (conftest.py lines
112-120): keep every sort key that does not start with one of `META#`,
`STATE#`, `CHANGE#`. -/
def verify_dynamodb_clean (sks : List String) : List String :=
  sks.filter (fun sk => !(startsWithAny sk infrastructureTags))

/-- `verify_dynamodb_clean` including its query step: orphan sort keys of the
given account in the given store. -/
def verify_dynamodb_clean_store (store : List Record) (account_id : String) :
    List String :=
  verify_dynamodb_clean (dynamoQuerySks store (accountPk account_id))

/-- One object of an S3 `list_objects_v2` response, reduced to its `Key`. -/
structure S3Obj where
  key : String
deriving DecidableEq, Repr

/-- `verify_s3_clean` (conftest.py lines 123-133): with no bucket configured
return `[]`; otherwise return the `Key` of every object listed under the
account's prefix — there is no infrastructure exception for blobs. -/
def verify_s3_clean (bucket : String) (contents : List S3Obj) : List String :=
  if bucket = "" then [] else contents.map S3Obj.key

/-- `delete_item` on a DynamoDB table: remove the record with the given full
primary key. -/
def deleteItem (store : List Record) (pk sk : String) : List Record :=
  store.filter (fun r => !(r.1 == pk && r.2 == sk))

/-- `delete_infrastructure_records` (conftest.py lines 136-156): query all
sort keys under the account's partition key, then delete exactly the ones
starting with a reserved pattern. -/
def delete_infrastructure_records (store : List Record) (account_id : String) :
    List Record :=
  let pk := accountPk account_id
  (dynamoQuerySks store pk).foldl
    (fun st sk =>
      if startsWithAny sk infrastructureTags then deleteItem st pk sk else st)
    store

/-! ### The verification retry loop of `test_account` (conftest.py lines 272-305)

The three optional stores are given by their configured names (the empty
string means "not configured", matching the falsy environment-variable
defaults) together with, for each verification attempt number, the data the
store returns on that attempt — the stores are eventually consistent, so the
answer may change between attempts. -/

/-- The store configuration and the time-indexed query answers seen by the
verification loop. -/
structure StoreEnv where
  dynamodb_table : String
  dynamodb_email_table : String
  blob_bucket : String
  coreQuery : Nat → List String
  emailQuery : Nat → List String
  s3List : Nat → List S3Obj

/-- The `if orphans: errors.append(...)` step for one DynamoDB table: an error
entry is the pair of the table name and its orphan sort keys. -/
def dynamoErrors (table : String) (sks : List String) :
    List (String × List String) :=
  let orphans := verify_dynamodb_clean sks
  if orphans ≠ [] then [(table, orphans)] else []

/-- One body of the `for attempt in range(max_attempts)` loop: reset `errors`,
check the core table, the email table and the blob bucket in that order,
skipping any store that is not configured. -/
def verifyRound (env : StoreEnv) (attempt : Nat) : List (String × List String) :=
  (if env.dynamodb_table ≠ "" then
    dynamoErrors env.dynamodb_table (env.coreQuery attempt)
  else []) ++
  (if env.dynamodb_email_table ≠ "" then
    dynamoErrors env.dynamodb_email_table (env.emailQuery attempt)
  else []) ++
  (if env.blob_bucket ≠ "" then
    (let orphans := verify_s3_clean env.blob_bucket (env.s3List attempt)
     if orphans ≠ [] then [(env.blob_bucket, orphans)] else [])
  else [])

/-- Result of the verification loop: how many rounds ran, how many
`time.sleep(wait_seconds)` calls happened, and the `errors` list in force at
the final `if errors: pytest.fail(...)` check (empty means success). -/
structure VerifyResult where
  rounds : Nat
  sleeps : Nat
  errors : List (String × List String)
deriving DecidableEq, Repr

/-- The retry loop, recursing on the attempts that remain out of
`max_attempts`; `attempt` is the Python loop index, so the invariant
`attempt + remaining = max_attempts` links the fuel to the
`attempt < max_attempts - 1` sleep guard: the guard holds exactly when
`remaining ≥ 2`.  An empty `errors` round exits the loop (`break`); orphans on
the last attempt exit with those errors; otherwise the loop sleeps once and
retries. -/
def verifyGo (env : StoreEnv) (attempt sleeps : Nat) :
    Nat → VerifyResult
  | 0 => ⟨attempt, sleeps, []⟩
  | remaining + 1 =>
    let errs := verifyRound env attempt
    if errs = [] then ⟨attempt + 1, sleeps, []⟩
    else if remaining = 0 then ⟨attempt + 1, sleeps, errs⟩
    else verifyGo env (attempt + 1) (sleeps + 1) remaining

/-- The whole verification phase: `max_attempts` rounds starting at attempt 0
with no sleeps yet.  `test_account` runs it with `max_attempts = 6`. -/
def verifySession (env : StoreEnv) (maxAttempts : Nat) : VerifyResult :=
  verifyGo env 0 0 maxAttempts

/-! ### The special-mailbox convergence loop of `test_account`
(conftest.py lines 241-257)

`get_all_mailboxes` is an HTTP collaborator; it is modelled as a probe indexed
by the value of the discrete clock at the moment of the call.  A mailbox is
reduced to the two fields the loop reads: `m["id"]` and `m.get('role')`.
`verify_special_mailboxes` raising `AssertionError` (the only exception the
loop swallows) is modelled by the check returning `false`.  Collaborator calls
are instantaneous in this model; time advances only at `time.sleep(interval)`,
so `time.time() - start` is the running total of completed sleeps. -/

/-- The two mailbox fields read by the convergence loop. -/
structure Mailbox where
  id : String
  role : Option String
deriving DecidableEq, Repr

/-- Exit state of the convergence loop: `converged` via `break` with the
mailboxes that passed the check, or `timedOut` into the `while`-`else` arm,
which calls `pytest.fail` with the roles of the last observed snapshot. -/
inductive PollOutcome where
  | converged (elapsed : Nat) (mailboxes : List Mailbox)
  | timedOut (elapsed : Nat) (observedRoles : List (Option String))
deriving DecidableEq, Repr

/-- The `while time.time() - start < max_wait` loop: probe, `break` when at
least 6 mailboxes exist and the structural check passes, otherwise sleep
`interval` and retry; once the deadline is reached, fail carrying the roles of
the last snapshot (`mailboxes` starts as `[]`). -/
def convergeFrom (probe : Nat → List Mailbox) (check : List Mailbox → Bool)
    (maxWait interval : Nat) (hpos : 0 < interval) (t : Nat)
    (last : List Mailbox) : PollOutcome :=
  if h : t < maxWait then
    let ms := probe t
    if 6 ≤ ms.length ∧ check ms = true then
      .converged t ms
    else
      convergeFrom probe check maxWait interval hpos (t + interval) ms
  else
    .timedOut t (last.map Mailbox.role)
termination_by maxWait - t
decreasing_by omega

/-! ### The session fixture `test_account` (conftest.py lines 207-316)

The fixture is a generator wrapped in `try ... finally`: `create_test_user`
runs before the `try`, every later stage runs inside it, and
`delete_test_user` is the single statement of the `finally`.  Each external
stage either returns or raises; which one happens is environment data.  The
run produces the ordered trace of collaborator calls together with the way
the session ended. -/

/-- Collaborator calls whose occurrences the session trace records. -/
inductive SessionEvent where
  | createUser
  | authenticate
  | discovery
  | destroyMailboxes
  | deleteInfrastructure (table : String)
  | deleteUser
deriving DecidableEq, Repr

/-- How the session ended: every stage succeeded and verification passed;
`pytest.fail` was called (convergence timeout or verification exhaustion); or
a stage raised an exception that propagated. -/
inductive SessionOutcome where
  | passed
  | failed
  | raised
deriving DecidableEq, Repr

/-- Environment of one session: which fallible stage raises, the convergence
probe and structural check, and the verification stores. -/
structure SessionEnv where
  createRaises : Bool
  authRaises : Bool
  discoveryRaises : Bool
  accountsEmpty : Bool
  probe : Nat → List Mailbox
  specialOk : List Mailbox → Bool
  bodyRaises : Bool
  destroyRaises : Bool
  stores : StoreEnv

/-- The verification phase and the infrastructure cleanup that follows it
(conftest.py lines 270-311), given the trace accumulated so far. -/
def verifyAndCleanup (env : SessionEnv) (evts : List SessionEvent) :
    List SessionEvent × SessionOutcome :=
  let v := verifySession env.stores 6
  if v.errors ≠ [] then (evts, .failed)
  else
    let evts := evts ++
      (if env.stores.dynamodb_table ≠ "" then
        [SessionEvent.deleteInfrastructure env.stores.dynamodb_table]
      else [])
    let evts := evts ++
      (if env.stores.dynamodb_email_table ≠ "" then
        [SessionEvent.deleteInfrastructure env.stores.dynamodb_email_table]
      else [])
    (evts, .passed)

/-- The body of the `try` block of `test_account`: authenticate, discovery
request, `accounts` extraction, special-mailbox convergence, the
yielded-to test body, `destroy_all_mailboxes` (only when there are mailbox
ids), then verification and infrastructure cleanup.  A raising stage cuts the
session short. -/
def sessionBody (env : SessionEnv) : List SessionEvent × SessionOutcome :=
  if env.authRaises then ([.authenticate], .raised)
  else if env.discoveryRaises then ([.authenticate, .discovery], .raised)
  else if env.accountsEmpty then ([.authenticate, .discovery], .raised)
  else
    match convergeFrom env.probe env.specialOk 30 2 (by decide) 0 [] with
    | .timedOut _ _ => ([.authenticate, .discovery], .failed)
    | .converged _ mailboxes =>
      if env.bodyRaises then ([.authenticate, .discovery], .raised)
      else if mailboxes = [] then
        verifyAndCleanup env [.authenticate, .discovery]
      else if env.destroyRaises then
        ([.authenticate, .discovery, .destroyMailboxes], .raised)
      else
        verifyAndCleanup env [.authenticate, .discovery, .destroyMailboxes]

/-- The whole fixture: `create_test_user` outside the `try`; when it returns,
the `finally` appends exactly one `delete_test_user` call to whatever the
`try` body did. -/
def runSession (env : SessionEnv) : List SessionEvent × SessionOutcome :=
  if env.createRaises then ([.createUser], .raised)
  else
    let body := sessionBody env
    (SessionEvent.createUser :: body.1 ++ [SessionEvent.deleteUser], body.2)

/-! ### Concrete instances used by the scenario claims and witnesses -/

/-- The four-record store of the §8 scenario, under account `acct-1`. -/
def scenarioStore : List Record :=
  [("ACCOUNT#acct-1", "META#"), ("ACCOUNT#acct-1", "STATE#mailbox"),
   ("ACCOUNT#acct-1", "CHANGE#2024-01-01"), ("ACCOUNT#acct-1", "DOC#abc")]

/-- Store environment of the §8 scenario: one configured DynamoDB table whose
query always returns the four scenario sort keys. -/
def scenarioEnv : StoreEnv :=
  ⟨"core", "", "",
   fun _ => ["META#", "STATE#mailbox", "CHANGE#2024-01-01", "DOC#abc"],
   fun _ => [], fun _ => []⟩

/-- Store environment whose single configured table reports one orphan on
attempts 0 and 1 and none from attempt 2 on. -/
def retryEnv : StoreEnv :=
  ⟨"core", "", "", fun a => if a < 2 then ["DOC#x"] else [],
   fun _ => [], fun _ => []⟩

/-- Store environment whose single configured table always reports one
orphan. -/
def stuckEnv : StoreEnv :=
  ⟨"core", "", "", fun _ => ["DOC#x"], fun _ => [], fun _ => []⟩

/-- Store environment where only the blob bucket is configured and it always
lists one object whose key starts with a reserved pattern. -/
def blobOnlyEnv : StoreEnv :=
  ⟨"", "", "bucket", fun _ => [], fun _ => [], fun _ => [⟨"META#obj"⟩]⟩

/-- Store environment where both DynamoDB tables see only reserved keys and
the bucket lists nothing. -/
def cleanEnv : StoreEnv :=
  ⟨"core", "email", "bucket", fun _ => ["META#", "STATE#mailbox"],
   fun _ => ["CHANGE#2024-01-01"], fun _ => []⟩

/-- A session whose stages never raise but whose probe never sees any
mailbox: convergence times out, then teardown runs. -/
def timeoutEnv : SessionEnv :=
  ⟨false, false, false, false, fun _ => [], fun _ => false, false, false,
   ⟨"", "", "", fun _ => [], fun _ => [], fun _ => []⟩⟩

/-- A deterministic stand-in for the `secrets` oracle: fixed picks and the
identity shuffle. -/
def fixedRng : PasswordRng :=
  ⟨'a', 'A', '0', '!', fun _ => 'a', fun l => l⟩

theorem fixedRng_valid : fixedRng.Valid := by
  refine ⟨by decide, by decide, by decide, by decide,
    fun i => show 'a' ∈ password_alphabet by decide, fun l => List.Perm.refl l⟩

/-! ### Small equation lemmas -/

theorem length_mk (l : List Char) : (String.mk l).length = l.length := rfl

theorem toList_mk (l : List Char) : (String.mk l).toList = l := rfl

theorem generate_password_toList (rng : PasswordRng) (L : Int) :
    (generate_password rng L).toList =
      rng.shuffle ([rng.pickLower, rng.pickUpper, rng.pickDigit, rng.pickSymbol] ++
        (List.range (L - 4).toNat).map rng.pickFill) := rfl

/-! ### C7 / C9: the password generator -/

/-- C7: for every requested length `L ≥ 4` and every behaviour of the
`secrets` oracle, the generated password has length exactly `L` and contains
at least one lowercase letter, one uppercase letter, one digit and one symbol
character. -/
theorem generate_password_meets_policy (rng : PasswordRng) (hv : rng.Valid)
    (L : Int) (hL : 4 ≤ L) :
    ((generate_password rng L).length : Int) = L ∧
    (∃ c ∈ (generate_password rng L).toList, c ∈ ascii_lowercase) ∧
    (∃ c ∈ (generate_password rng L).toList, c ∈ ascii_uppercase) ∧
    (∃ c ∈ (generate_password rng L).toList, c ∈ ascii_digits) ∧
    (∃ c ∈ (generate_password rng L).toList, c ∈ password_symbols) := by
  obtain ⟨h1, h2, h3, h4, _h5, h6⟩ := hv
  have hperm := h6 ([rng.pickLower, rng.pickUpper, rng.pickDigit, rng.pickSymbol] ++
    (List.range (L - 4).toNat).map rng.pickFill)
  have hmem : ∀ c, c ∈ (generate_password rng L).toList ↔
      c ∈ ([rng.pickLower, rng.pickUpper, rng.pickDigit, rng.pickSymbol] ++
        (List.range (L - 4).toNat).map rng.pickFill) := by
    intro c
    rw [generate_password_toList]
    exact hperm.mem_iff
  refine ⟨?_, ⟨rng.pickLower, (hmem _).mpr (by simp), h1⟩,
    ⟨rng.pickUpper, (hmem _).mpr (by simp), h2⟩,
    ⟨rng.pickDigit, (hmem _).mpr (by simp), h3⟩,
    ⟨rng.pickSymbol, (hmem _).mpr (by simp), h4⟩⟩
  have hlen : (generate_password rng L).length = 4 + (L - 4).toNat := by
    show (String.mk _).length = _
    rw [length_mk, hperm.length_eq]
    simp
    omega
  rw [hlen]
  omega

/-- Closed instance of the C7 theorem at `L = 24` with a concrete oracle. -/
theorem generate_password_meets_policy_witness :
    ((generate_password fixedRng 24).length : Int) = 24 ∧
    (∃ c ∈ (generate_password fixedRng 24).toList, c ∈ ascii_lowercase) ∧
    (∃ c ∈ (generate_password fixedRng 24).toList, c ∈ ascii_uppercase) ∧
    (∃ c ∈ (generate_password fixedRng 24).toList, c ∈ ascii_digits) ∧
    (∃ c ∈ (generate_password fixedRng 24).toList, c ∈ password_symbols) :=
  generate_password_meets_policy fixedRng fixedRng_valid 24 (by decide)

/-- C9: for every requested length `L < 4` — zero and negative included — the
generator still returns a password of length exactly 4 that contains one
character of each required class, because Python's `range(length - 4)` is
empty. -/
theorem generate_password_short_request (rng : PasswordRng) (hv : rng.Valid)
    (L : Int) (hL : L < 4) :
    (generate_password rng L).length = 4 ∧
    (∃ c ∈ (generate_password rng L).toList, c ∈ ascii_lowercase) ∧
    (∃ c ∈ (generate_password rng L).toList, c ∈ ascii_uppercase) ∧
    (∃ c ∈ (generate_password rng L).toList, c ∈ ascii_digits) ∧
    (∃ c ∈ (generate_password rng L).toList, c ∈ password_symbols) := by
  obtain ⟨h1, h2, h3, h4, _h5, h6⟩ := hv
  have hperm := h6 ([rng.pickLower, rng.pickUpper, rng.pickDigit, rng.pickSymbol] ++
    (List.range (L - 4).toNat).map rng.pickFill)
  have hmem : ∀ c, c ∈ (generate_password rng L).toList ↔
      c ∈ ([rng.pickLower, rng.pickUpper, rng.pickDigit, rng.pickSymbol] ++
        (List.range (L - 4).toNat).map rng.pickFill) := by
    intro c
    rw [generate_password_toList]
    exact hperm.mem_iff
  refine ⟨?_, ⟨rng.pickLower, (hmem _).mpr (by simp), h1⟩,
    ⟨rng.pickUpper, (hmem _).mpr (by simp), h2⟩,
    ⟨rng.pickDigit, (hmem _).mpr (by simp), h3⟩,
    ⟨rng.pickSymbol, (hmem _).mpr (by simp), h4⟩⟩
  have hz : (L - 4).toNat = 0 := by omega
  show (String.mk _).length = _
  rw [length_mk, hperm.length_eq, hz]
  simp

/-- Closed instance of the C9 theorem at `L = -3`. -/
theorem generate_password_short_request_witness :
    (generate_password fixedRng (-3)).length = 4 ∧
    (∃ c ∈ (generate_password fixedRng (-3)).toList, c ∈ ascii_lowercase) ∧
    (∃ c ∈ (generate_password fixedRng (-3)).toList, c ∈ ascii_uppercase) ∧
    (∃ c ∈ (generate_password fixedRng (-3)).toList, c ∈ ascii_digits) ∧
    (∃ c ∈ (generate_password fixedRng (-3)).toList, c ∈ password_symbols) :=
  generate_password_short_request fixedRng fixedRng_valid (-3) (by decide)

/-! ### C8: the blob-store verifier applies no infrastructure exception -/

/-- C8: for a configured bucket, `verify_s3_clean` returns exactly the key of
every object listed under the account's prefix — every listed object is an
orphan, reserved patterns included. -/
theorem verify_s3_clean_returns_all_keys (bucket : String) (hb : bucket ≠ "")
    (contents : List S3Obj) :
    verify_s3_clean bucket contents = contents.map S3Obj.key := by
  rw [verify_s3_clean, if_neg hb]

/-- Closed instance of the C8 theorem: even a key starting with `META#` is
reported. -/
theorem verify_s3_clean_returns_all_keys_witness :
    verify_s3_clean "bucket" [⟨"k1"⟩, ⟨"META#obj"⟩] = ["k1", "META#obj"] :=
  verify_s3_clean_returns_all_keys "bucket" (by decide) [⟨"k1"⟩, ⟨"META#obj"⟩]

/-! ### C2: the key classifier and the §8 scenario -/

/-- C2: a sort key survives `verify_dynamodb_clean` as an orphan exactly when
it was returned by the query and starts with none of `META#`, `STATE#`,
`CHANGE#`; on the scenario store of account `acct-1` holding `META#`,
`STATE#mailbox`, `CHANGE#2024-01-01` and `DOC#abc` the orphan list is exactly
`["DOC#abc"]`, and the verification loop with an attempt budget of 1 fails
reporting that single orphan. -/
theorem classifier_rule_and_scenario :
    (∀ (sks : List String) (k : String),
        k ∈ verify_dynamodb_clean sks ↔
          k ∈ sks ∧ ¬(pyStartsWith k "META#" = true ∨ pyStartsWith k "STATE#" = true ∨
            pyStartsWith k "CHANGE#" = true)) ∧
    verify_dynamodb_clean_store scenarioStore "acct-1" = ["DOC#abc"] ∧
    verifySession scenarioEnv 1 = ⟨1, 0, [("core", ["DOC#abc"])]⟩ := by
  refine ⟨fun sks k => ?_, by decide, by decide⟩
  simp [verify_dynamodb_clean, List.mem_filter, startsWithAny, infrastructureTags]

/-! ### Loop lemmas for the verification phase -/

theorem verifyGo_step (env : StoreEnv) (attempt sleeps remaining : Nat) :
    verifyGo env attempt sleeps (remaining + 1) =
      if verifyRound env attempt = [] then ⟨attempt + 1, sleeps, []⟩
      else if remaining = 0 then ⟨attempt + 1, sleeps, verifyRound env attempt⟩
      else verifyGo env (attempt + 1) (sleeps + 1) remaining := rfl

theorem verifyGo_exhaust (env : StoreEnv)
    (hne : ∀ a, verifyRound env a ≠ []) :
    ∀ remaining attempt sleeps, 1 ≤ remaining →
      verifyGo env attempt sleeps remaining =
        ⟨attempt + remaining, sleeps + (remaining - 1),
         verifyRound env (attempt + remaining - 1)⟩ := by
  intro remaining
  induction remaining with
  | zero => omega
  | succ r ih =>
    intro attempt sleeps _
    rw [verifyGo_step, if_neg (hne attempt)]
    by_cases hr : r = 0
    · subst hr
      simp
    · rw [if_neg hr, ih attempt.succ sleeps.succ (by omega)]
      have e1 : attempt + 1 + r = attempt + (r + 1) := by omega
      have e2 : sleeps + 1 + (r - 1) = sleeps + (r + 1 - 1) := by omega
      rw [e1, e2]

/-! ### C3: verification exhaustion -/

/-- C3: when some configured store reports at least one orphan on every
attempt, the verification phase runs exactly `max_attempts` rounds, sleeps
exactly `max_attempts - 1` times (never after the final round), and ends with
the exact per-store orphan errors of the final round, which are nonempty, so
`pytest.fail` fires with them. -/
theorem verification_exhaustion (env : StoreEnv) (maxAttempts : Nat)
    (hM : 1 ≤ maxAttempts)
    (hstuck :
      (env.dynamodb_table ≠ "" ∧
        ∀ a, verify_dynamodb_clean (env.coreQuery a) ≠ []) ∨
      (env.dynamodb_email_table ≠ "" ∧
        ∀ a, verify_dynamodb_clean (env.emailQuery a) ≠ []) ∨
      (env.blob_bucket ≠ "" ∧ ∀ a, env.s3List a ≠ [])) :
    verifySession env maxAttempts =
      ⟨maxAttempts, maxAttempts - 1, verifyRound env (maxAttempts - 1)⟩ ∧
    verifyRound env (maxAttempts - 1) ≠ [] := by
  have hne : ∀ a, verifyRound env a ≠ [] := by
    intro a heq
    rw [verifyRound, List.append_assoc, List.append_eq_nil] at heq
    obtain ⟨hc, he⟩ := heq
    rw [List.append_eq_nil] at he
    obtain ⟨he, hb⟩ := he
    rcases hstuck with ⟨h, horph⟩ | ⟨h, horph⟩ | ⟨h, horph⟩
    · rw [if_pos h, dynamoErrors, if_pos (horph a)] at hc
      exact List.cons_ne_nil _ _ hc
    · rw [if_pos h, dynamoErrors, if_pos (horph a)] at he
      exact List.cons_ne_nil _ _ he
    · rw [if_pos h] at hb
      have hor : verify_s3_clean env.blob_bucket (env.s3List a) ≠ [] := by
        rw [verify_s3_clean, if_neg h]
        simpa using horph a
      rw [if_pos hor] at hb
      exact List.cons_ne_nil _ _ hb
  have := verifyGo_exhaust env hne maxAttempts 0 0 hM
  rw [verifySession, this]
  simp
  exact hne (maxAttempts - 1)

/-- Closed instance of the C3 theorem: one configured table stuck on one
orphan, budget 6. -/
theorem verification_exhaustion_witness :
    verifySession stuckEnv 6 = ⟨6, 5, verifyRound stuckEnv 5⟩ ∧
    verifyRound stuckEnv 5 ≠ [] :=
  verification_exhaustion stuckEnv 6 (by decide)
    (Or.inl ⟨by decide,
      fun a => show verify_dynamodb_clean ["DOC#x"] ≠ [] by decide⟩)

/-! ### C4: the first-attempt success path (corrected) -/

/-- C4 falls on the blob store: `blobOnlyEnv` configures only the bucket and
every listed object key starts with the reserved pattern `META#`, yet
verification does not succeed on the first attempt — it exhausts all six
rounds, sleeps five times and fails reporting that object, because
`verify_s3_clean` applies no infrastructure exception. -/
theorem first_attempt_success_counterexample :
    blobOnlyEnv.dynamodb_table = "" ∧ blobOnlyEnv.dynamodb_email_table = "" ∧
    blobOnlyEnv.blob_bucket ≠ "" ∧
    blobOnlyEnv.s3List = (fun _ => [⟨"META#obj"⟩]) ∧
    (∀ k ∈ (blobOnlyEnv.s3List 0).map S3Obj.key,
      startsWithAny k infrastructureTags = true) ∧
    verifySession blobOnlyEnv 6 ≠ ⟨1, 0, []⟩ ∧
    verifySession blobOnlyEnv 6 = ⟨6, 5, [("bucket", ["META#obj"])]⟩ :=
  ⟨rfl, rfl, by decide, rfl, by decide, by decide, by decide⟩

/-- C4 as amended: when every configured DynamoDB store returns only
reserved-pattern keys (or none) and the configured blob bucket, if any, lists
no objects, verification succeeds on the first attempt: exactly one round and
zero sleeps. -/
theorem verification_first_attempt_success (env : StoreEnv) (maxAttempts : Nat)
    (hM : 1 ≤ maxAttempts)
    (hcore : env.dynamodb_table ≠ "" →
      ∀ k ∈ env.coreQuery 0, startsWithAny k infrastructureTags = true)
    (hemail : env.dynamodb_email_table ≠ "" →
      ∀ k ∈ env.emailQuery 0, startsWithAny k infrastructureTags = true)
    (hblob : env.blob_bucket ≠ "" → env.s3List 0 = []) :
    verifySession env maxAttempts = ⟨1, 0, []⟩ := by
  have hclean : ∀ (sks : List String),
      (∀ k ∈ sks, startsWithAny k infrastructureTags = true) →
      verify_dynamodb_clean sks = [] := by
    intro sks hall
    rw [verify_dynamodb_clean, List.filter_eq_nil_iff]
    intro k hk
    simp [hall k hk]
  have hround : verifyRound env 0 = [] := by
    rw [verifyRound]
    have hc : (if env.dynamodb_table ≠ "" then
        dynamoErrors env.dynamodb_table (env.coreQuery 0) else []) = [] := by
      by_cases h : env.dynamodb_table = ""
      · rw [if_neg (by simpa using h)]
      · rw [if_pos h, dynamoErrors, hclean _ (hcore h)]
        simp
    have he : (if env.dynamodb_email_table ≠ "" then
        dynamoErrors env.dynamodb_email_table (env.emailQuery 0) else []) = [] := by
      by_cases h : env.dynamodb_email_table = ""
      · rw [if_neg (by simpa using h)]
      · rw [if_pos h, dynamoErrors, hclean _ (hemail h)]
        simp
    have hb : (if env.blob_bucket ≠ "" then
        (let orphans := verify_s3_clean env.blob_bucket (env.s3List 0)
         if orphans ≠ [] then [(env.blob_bucket, orphans)] else [])
      else []) = [] := by
      by_cases h : env.blob_bucket = ""
      · rw [if_neg (by simpa using h)]
      · rw [if_pos h]
        simp [verify_s3_clean, hblob h]
    rw [hc, he, hb]
    rfl
  obtain ⟨m, rfl⟩ : ∃ m, maxAttempts = m + 1 :=
    ⟨maxAttempts - 1, by omega⟩
  rw [verifySession, verifyGo_step, if_pos hround]

/-- Closed instance of the amended C4 theorem: two tables holding only
reserved keys, an empty bucket, budget 6. -/
theorem verification_first_attempt_success_witness :
    verifySession cleanEnv 6 = ⟨1, 0, []⟩ :=
  verification_first_attempt_success cleanEnv 6 (by decide)
    (fun _ => by decide) (fun _ => by decide) (fun _ => rfl)

/-! ### C5: the retry-then-success path -/

/-- C5: with a single configured store that reports exactly one orphan on
attempts 1 and 2 and none on attempt 3, and `max_attempts = 6`, verification
succeeds — three rounds, exactly two sleeps, no errors at the final check. -/
theorem verification_retry_then_success (env : StoreEnv)
    (htab : env.dynamodb_table ≠ "")
    (hemail : env.dynamodb_email_table = "") (hblob : env.blob_bucket = "")
    (h0 : (verify_dynamodb_clean (env.coreQuery 0)).length = 1)
    (h1 : (verify_dynamodb_clean (env.coreQuery 1)).length = 1)
    (h2 : verify_dynamodb_clean (env.coreQuery 2) = []) :
    verifySession env 6 = ⟨3, 2, []⟩ := by
  have hsingle : ∀ a, verifyRound env a =
      dynamoErrors env.dynamodb_table (env.coreQuery a) := by
    intro a
    rw [verifyRound, if_pos htab, if_neg (by simp [hemail]),
      if_neg (by simp [hblob])]
    simp
  have hne : ∀ a, (verify_dynamodb_clean (env.coreQuery a)).length = 1 →
      verifyRound env a ≠ [] := by
    intro a hlen
    rw [hsingle a, dynamoErrors, if_pos (by intro hnil; rw [hnil] at hlen; simp at hlen)]
    exact List.cons_ne_nil _ _
  have hz : verifyRound env 2 = [] := by
    rw [hsingle 2, dynamoErrors, h2]
    simp
  rw [verifySession,
    show (6 : Nat) = 5 + 1 from rfl, verifyGo_step, if_neg (hne 0 h0),
    if_neg (by decide : ¬(5 = 0)),
    show (5 : Nat) = 4 + 1 from rfl, verifyGo_step, if_neg (hne 1 h1),
    if_neg (by decide : ¬(4 = 0)),
    show (4 : Nat) = 3 + 1 from rfl, verifyGo_step, if_pos hz]

/-- Closed instance of the C5 theorem on the concrete retry environment. -/
theorem verification_retry_then_success_witness :
    verifySession retryEnv 6 = ⟨3, 2, []⟩ :=
  verification_retry_then_success retryEnv (by decide) rfl rfl
    (by decide) (by decide) (by decide)

/-! ### C6: convergence timeout determinism -/

theorem convergeFrom_timeout_aux (probe : Nat → List Mailbox)
    (check : List Mailbox → Bool) (maxWait interval : Nat) (hpos : 0 < interval)
    (hnever : ∀ t, ¬(6 ≤ (probe t).length ∧ check (probe t) = true)) :
    ∀ k t last, maxWait - t = k → t < maxWait →
      ∃ tf, convergeFrom probe check maxWait interval hpos t last =
              PollOutcome.timedOut tf ((probe (tf - interval)).map Mailbox.role) ∧
            maxWait ≤ tf ∧ tf < maxWait + interval := by
  intro k
  induction k using Nat.strong_induction_on with
  | _ k ih =>
    intro t last hk ht
    rw [convergeFrom, dif_pos ht]
    simp only []
    rw [if_neg (hnever t)]
    by_cases hlt : t + interval < maxWait
    · exact ih (maxWait - (t + interval)) (by omega) (t + interval) (probe t) rfl hlt
    · rw [convergeFrom, dif_neg hlt]
      refine ⟨t + interval, ?_, by omega, by omega⟩
      rw [Nat.add_sub_cancel]

/-- C6: when the probe never satisfies the predicate — fewer than six
mailboxes, or the structural check reporting its soft assertion every time —
the convergence loop times out at an elapsed time `tf` with
`max_wait ≤ tf < max_wait + interval` (never earlier, never later than one
interval past the deadline in this discrete-clock model, where collaborator
calls are instantaneous and only `time.sleep(interval)` advances time), and
the failure carries exactly the roles of the mailboxes observed by the last
probe, which happened one interval before the deadline check that failed. -/
theorem convergence_poller_timeout (probe : Nat → List Mailbox)
    (check : List Mailbox → Bool) (maxWait interval : Nat)
    (hpos : 0 < interval) (hW : 0 < maxWait)
    (hnever : ∀ t, ¬(6 ≤ (probe t).length ∧ check (probe t) = true)) :
    ∃ tf, convergeFrom probe check maxWait interval hpos 0 [] =
            PollOutcome.timedOut tf ((probe (tf - interval)).map Mailbox.role) ∧
          maxWait ≤ tf ∧ tf < maxWait + interval :=
  convergeFrom_timeout_aux probe check maxWait interval hpos hnever
    (maxWait - 0) 0 [] rfl hW

/-- Closed instance of the C6 theorem at the conftest constants
`max_wait = 30`, `interval = 2`, with a probe that always returns no
mailboxes. -/
theorem convergence_poller_timeout_witness :
    ∃ tf, convergeFrom (fun _ => []) (fun _ => false) 30 2 (by decide) 0 [] =
            PollOutcome.timedOut tf
              (((fun (_ : Nat) => ([] : List Mailbox)) (tf - 2)).map Mailbox.role) ∧
          30 ≤ tf ∧ tf < 30 + 2 :=
  convergence_poller_timeout (fun _ => []) (fun _ => false) 30 2 (by decide)
    (by decide) (fun t h => absurd h.1 (show ¬6 ≤ ([] : List Mailbox).length by decide))

/-! ### C10: the infrastructure cleanup deletes nothing else -/

theorem mem_deleteFold (pk : String) (sks : List String) :
    ∀ (st : List Record) (r : Record),
      r ∈ sks.foldl (fun st sk =>
          if startsWithAny sk infrastructureTags then deleteItem st pk sk
          else st) st ↔
        r ∈ st ∧ ∀ sk ∈ sks, startsWithAny sk infrastructureTags = true →
          ¬(r.1 = pk ∧ r.2 = sk) := by
  induction sks with
  | nil => simp
  | cons sk sks ih =>
    intro st r
    rw [List.foldl_cons]
    by_cases hres : startsWithAny sk infrastructureTags = true
    · rw [if_pos hres, ih]
      have hdel : r ∈ deleteItem st pk sk ↔ r ∈ st ∧ ¬(r.1 = pk ∧ r.2 = sk) := by
        simp [deleteItem, List.mem_filter]
        tauto
      rw [hdel]
      simp only [List.forall_mem_cons, hres, forall_const]
      tauto
    · rw [if_neg hres, ih]
      simp only [List.forall_mem_cons]
      have : (startsWithAny sk infrastructureTags = true →
          ¬(r.1 = pk ∧ r.2 = sk)) ↔ True := by
        simp [hres]
      rw [this]
      tauto

/-- C10: a record survives `delete_infrastructure_records` exactly when it is
not a reserved-pattern record of the given account: records of other
partition keys and records whose sort key starts with none of `META#`,
`STATE#`, `CHANGE#` are left untouched, and exactly the reserved records under
`ACCOUNT#<account_id>` are deleted. -/
theorem delete_infrastructure_records_frame (store : List Record)
    (account_id : String) (r : Record) :
    r ∈ delete_infrastructure_records store account_id ↔
      r ∈ store ∧ ¬(r.1 = accountPk account_id ∧
        startsWithAny r.2 infrastructureTags = true) := by
  simp only [delete_infrastructure_records]
  rw [mem_deleteFold]
  constructor
  · rintro ⟨hmem, hall⟩
    refine ⟨hmem, ?_⟩
    rintro ⟨hpk, hres⟩
    have hin : r.2 ∈ dynamoQuerySks store (accountPk account_id) := by
      rw [dynamoQuerySks]
      refine List.mem_map.mpr ⟨r, List.mem_filter.mpr ⟨hmem, ?_⟩, rfl⟩
      simp [hpk]
    exact hall r.2 hin hres ⟨hpk, rfl⟩
  · rintro ⟨hmem, hnot⟩
    refine ⟨hmem, ?_⟩
    intro sk _ hres hkey
    exact hnot ⟨hkey.1, by rw [hkey.2]; exact hres⟩

/-! ### C1: the identity teardown runs exactly once -/

theorem count_deleteUser_verifyAndCleanup (env : SessionEnv)
    (evts : List SessionEvent) :
    (verifyAndCleanup env evts).1.count SessionEvent.deleteUser =
      evts.count SessionEvent.deleteUser := by
  rw [verifyAndCleanup]
  by_cases h : (verifySession env.stores 6).errors ≠ []
  · rw [if_pos h]
  · rw [if_neg h]
    simp only []
    rw [List.count_append, List.count_append]
    have hz : ∀ (c : Prop) [Decidable c] (t : String),
        (if c then [SessionEvent.deleteInfrastructure t] else []).count
          SessionEvent.deleteUser = 0 := by
      intro c _ t
      by_cases hc : c
      · rw [if_pos hc]
        simp [List.count_cons]
      · rw [if_neg hc]
        rfl
    rw [hz, hz]
    simp

theorem count_deleteUser_sessionBody (env : SessionEnv) :
    (sessionBody env).1.count SessionEvent.deleteUser = 0 := by
  rw [sessionBody]
  repeat' split
  all_goals first
    | decide
    | (rw [count_deleteUser_verifyAndCleanup]; decide)

/-- C1: in every session whose `create_test_user` call returns — whatever any
later stage does: authentication raising (the provisioner raising after the
principal exists), discovery raising, an empty accounts map, convergence
timing out, the test body raising, mailbox reclamation raising, verification
exhausting its budget and failing, or everything succeeding — the trace of
the run contains exactly one `delete_test_user` call, placed by the `finally`
block. -/
theorem delete_test_user_exactly_once (env : SessionEnv)
    (hcreate : env.createRaises = false) :
    (runSession env).1.count SessionEvent.deleteUser = 1 := by
  rw [runSession, if_neg (by simp [hcreate])]
  simp [List.count_cons, List.count_append, count_deleteUser_sessionBody env]

/-- Closed instance of the C1 theorem: a session whose convergence poll never
succeeds still deletes the ephemeral user exactly once. -/
theorem delete_test_user_exactly_once_witness :
    (runSession timeoutEnv).1.count SessionEvent.deleteUser = 1 :=
  delete_test_user_exactly_once timeoutEnv rfl

end Conftest
